import Mathlib

/-!
Shallow embedding of `getJointSpaceForces.cpp` (repository DanielFNG/dram).

The program decomposes the rigid-body equation of motion
`M(q)q'' + C(q,q') + g(q) = tau + F` into per-frame joint-space
contributions.  We embed the per-frame computation (`frameOutput`) and the
stream-reading loop (`run`).  The OpenSim/Simbody engine calls are modelled
by an abstract `Engine` structure whose fields carry the documented
semantics of the library operations the program uses: the mass-matrix
product (`multiplyByM`), per-body system-Jacobian-transpose products
(`multiplyBySystemJacobianTranspose`), frame Jacobians at a station of a
body (`calcFrameJacobian` / `multiplyByFrameJacobianTranspose`), point
transforms between body frames (`transformPosition`), and the per-body
total centrifugal forces (`getTotalCentrifugalForces`).

Scalars (C++ `double`) are modelled by an arbitrary field `α` so that the
embedding stays executable; the concrete degree-to-radian factor
`(std::atan(1)*4)/180.0` appearing at line 199 of the source is a parameter
`deg2rad`, instantiated with `Real.arctan 1 * 4 / 180 : ℝ` in the theorem
about unit conversion.
-/

namespace JSF

/-- The realized dynamic state of the model: generalized positions `q` and
generalized velocities `u`.  `osimModel.setStateValues` packs the `2n`
state scalars position-then-velocity. -/
structure SimState (n : ℕ) (α : Type) where
  q : Fin n → α
  u : Fin n → α

/-- Abstract model of the OpenSim/Simbody engine operations used by the
program, for a model with `n` mobilities (`getNumMobilities`) and `m`
bodies (`getNumBodies`).

* `massMatrix s` — the mass matrix `M(q)`; `multiplyByM` computes
  `M(q) · v`.
* `gravityBodyForce s b` — the gravitational spatial force on body `b`
  (`getGravityForce().getBodyForces(si)`, a vector of `m` spatial vectors).
* `sysJacBlock s b` — the `n × 6` block of the transposed system Jacobian
  belonging to body `b`; `multiplyBySystemJacobianTranspose` applied to a
  list `F` of spatial vectors computes `Σ_b sysJacBlock s b · F b`.
* `centrifugal s b` — `getTotalCentrifugalForces(si, b)`, the total
  centrifugal (gyroscopic plus Coriolis) spatial force on body `b`.
* `frameJac s b p` — the `6 × n` frame Jacobian at station `p` of body `b`
  (`calcFrameJacobian`); `multiplyByFrameJacobianTranspose` computes its
  transpose applied to a spatial force.
* `transformPos s b₁ p b₂` — `transformPosition`, re-expressing point `p`
  of body `b₁`'s frame in body `b₂`'s frame.
* `bodyName b` — `getBodySet().get(b).getName()`.
* `centrifugal_u_zero` — documented engine semantics: the total
  centrifugal forces are quadratic in the generalized velocities and
  vanish when `u = 0`. -/
structure Engine (n m : ℕ) (α : Type) [Field α] where
  massMatrix : SimState n α → Matrix (Fin n) (Fin n) α
  gravityBodyForce : SimState n α → ℕ → Fin 6 → α
  sysJacBlock : SimState n α → ℕ → Matrix (Fin n) (Fin 6) α
  centrifugal : SimState n α → ℕ → Fin 6 → α
  frameJac : SimState n α → ℕ → (Fin 3 → α) → Matrix (Fin 6) (Fin n) α
  transformPos : SimState n α → ℕ → (Fin 3 → α) → ℕ → Fin 3 → α
  bodyName : ℕ → String
  centrifugal_u_zero : ∀ s : SimState n α, s.u = 0 → ∀ b, centrifugal s b = 0

variable {α : Type} [Field α] {n m : ℕ}

/-- One frame's parsed inputs: 18 GRF channels, `2n` state scalars,
`n` (already unit-converted) accelerations, `n` measured net torques
(the `dynamics` vector read from the inverse-dynamics file). -/
structure FrameInputs (n : ℕ) (α : Type) where
  grfs : Fin 18 → α
  states : Fin (2 * n) → α
  accelerations : Fin n → α
  dynamics : Fin n → α

/-- Reading one frame's payload (source lines 188–205): the GRF, state and
dynamics scalars are stored as read; each acceleration scalar at index `j`
with `j < 3 ∨ j > 5` is multiplied by `deg2rad`
(`(std::atan(1)*4)/180.0`), the rest are stored unconverted. -/
def readFrame (deg2rad : α) (rawGrfs : Fin 18 → α) (rawStates : Fin (2 * n) → α)
    (rawAccels rawDyns : Fin n → α) : FrameInputs n α :=
  { grfs := rawGrfs
    states := rawStates
    accelerations := fun j =>
      if (j : ℕ) < 3 ∨ 5 < (j : ℕ) then rawAccels j * deg2rad else rawAccels j
    dynamics := rawDyns }

/-- `osimModel.setStateValues(si, states)` (source line 215): the first `n`
scalars are the generalized positions, the next `n` the velocities. -/
def setStateValues (states : Fin (2 * n) → α) : SimState n α :=
  { q := fun k => states ⟨k.val, by have := k.isLt; omega⟩
    u := fun k => states ⟨n + k.val, by have := k.isLt; omega⟩ }

/-- `multiplyBySystemJacobianTranspose` (engine semantics): map a vector of
per-body spatial forces to generalized-coordinate space,
`Σ_b sysJacBlock s b · F b` over the entries passed. -/
def mulSysJacT (eng : Engine n m α) (s : SimState n α) (F : List (Fin 6 → α)) :
    Fin n → α :=
  fun k => ∑ b ∈ Finset.range F.length, (eng.sysJacBlock s b).mulVec (F.getD b 0) k

/-- Source lines 218–223: `inertiaTorques` from `multiplyByM` applied to the
acceleration vector. -/
def inertiaTorques (eng : Engine n m α) (s : SimState n α)
    (accelerations : Fin n → α) : Fin n → α :=
  (eng.massMatrix s).mulVec accelerations

/-- The engine's per-body gravity forces as the length-`m` vector
`getBodyForces` returns (source lines 227–228). -/
def gravityForces (eng : Engine n m α) (s : SimState n α) : List (Fin 6 → α) :=
  (List.range m).map (eng.gravityBodyForce s)

/-- Source lines 226–232: `gravityTorques` from
`multiplyBySystemJacobianTranspose` applied to the gravity body forces. -/
def gravityTorques (eng : Engine n m α) (s : SimState n α) : Fin n → α :=
  mulSysJacT eng s (gravityForces eng s)

/-- Source lines 236–245: the stack buffer `SimTK::Vec<18, SpatialVec>
totalCentrifugalForces`; entry 0 is explicitly zeroed (ground), entries
`1 ≤ j < m` are written from `getTotalCentrifugalForces`, all other
entries keep their indeterminate initial contents, modelled by the
parameter `garbage`. -/
def totalCentrifugalForces (eng : Engine n m α) (s : SimState n α)
    (garbage : ℕ → Fin 6 → α) : ℕ → Fin 6 → α :=
  fun j => if j = 0 then 0 else if j < m then eng.centrifugal s j else garbage j

/-- Source lines 246–247: the `Vector_<SpatialVec>` built from the 18-entry
stack buffer; it always has exactly 18 entries. -/
def totalCentrifugalForces_reference (eng : Engine n m α) (s : SimState n α)
    (garbage : ℕ → Fin 6 → α) : List (Fin 6 → α) :=
  (List.range 18).map (totalCentrifugalForces eng s garbage)

/-- Source lines 248–249: `coriolisTorques` from
`multiplyBySystemJacobianTranspose` applied to the 18-entry buffer. -/
def coriolisTorques (eng : Engine n m α) (s : SimState n α)
    (garbage : ℕ → Fin 6 → α) : Fin n → α :=
  mulSysJacT eng s (totalCentrifugalForces_reference eng s garbage)

/-- The indices of the 18-entry centrifugal buffer written per frame:
index 0 (zeroed for ground, lines 237–238) and indices `1,…,m−1`
(the loop at line 239). -/
def centrifugalWriteIndices (m : ℕ) : List ℕ :=
  0 :: List.range' 1 (m - 1)

/-- Source lines 265–272: unpacking the 18 GRF channels. -/
def groundRightForce (grfs : Fin 18 → α) : Fin 3 → α :=
  fun j => grfs ⟨j.val, by have := j.isLt; omega⟩

/-- Channels 3–5: right centre of pressure. -/
def groundRightCOP (grfs : Fin 18 → α) : Fin 3 → α :=
  fun j => grfs ⟨j.val + 3, by have := j.isLt; omega⟩

/-- Channels 12–14: right moment. -/
def groundRightMoment (grfs : Fin 18 → α) : Fin 3 → α :=
  fun j => grfs ⟨j.val + 12, by have := j.isLt; omega⟩

/-- Channels 6–8: left force. -/
def groundLeftForce (grfs : Fin 18 → α) : Fin 3 → α :=
  fun j => grfs ⟨j.val + 6, by have := j.isLt; omega⟩

/-- Channels 9–11: left centre of pressure. -/
def groundLeftCOP (grfs : Fin 18 → α) : Fin 3 → α :=
  fun j => grfs ⟨j.val + 9, by have := j.isLt; omega⟩

/-- Channels 15–17: left moment. -/
def groundLeftMoment (grfs : Fin 18 → α) : Fin 3 → α :=
  fun j => grfs ⟨j.val + 15, by have := j.isLt; omega⟩

/-- Source lines 276–280: the fixed orthosis centre of pressure
`(0, −0.35, 0)` in the femur frames. -/
def orthosisCOP : Fin 3 → α :=
  fun j => if j.val = 1 then -(35 / 100 : α) else 0

/-- A SimTK `SpatialVec`: moment part (entries 0–2) then force part
(entries 3–5), as assigned at lines 296–297. -/
def mkSpatial (moment force : Fin 3 → α) : Fin 6 → α :=
  fun i =>
    if h : i.val < 3 then moment ⟨i.val, h⟩
    else force ⟨i.val - 3, by have := i.isLt; omega⟩

/-- The four quantities updated by the body-scan loop of lines 282–366.
`Vector` / `Matrix` are default-constructed at lines 254–255; the value
that persists when no body name matches is modelled as zero. -/
structure ContactState (n : ℕ) (α : Type) where
  rightGRFTorques : Fin n → α
  leftGRFTorques : Fin n → α
  rightAPOJacobian : Matrix (Fin 6) (Fin n) α
  leftAPOJacobian : Matrix (Fin 6) (Fin n) α

/-- One iteration of the body-scan loop (lines 282–366): an exact-name
if/else-if chain on body `j`'s name.  For `calcn_r`/`calcn_l` the ground
wrench (moment, force) is mapped through the frame-Jacobian transpose at
the centre of pressure transformed into body `j`'s frame; for
`femur_r`/`femur_l` the frame Jacobian at `orthosisCOP` is stored. -/
def contactStep (eng : Engine n m α) (s : SimState n α) (grfs : Fin 18 → α)
    (acc : ContactState n α) (j : ℕ) : ContactState n α :=
  if eng.bodyName j = "calcn_r" then
    let rCalcCOP := eng.transformPos s 0 (groundRightCOP grfs) j
    { acc with
      rightGRFTorques := (eng.frameJac s j rCalcCOP).transpose.mulVec
        (mkSpatial (groundRightMoment grfs) (groundRightForce grfs)) }
  else if eng.bodyName j = "calcn_l" then
    let lCalcCOP := eng.transformPos s 0 (groundLeftCOP grfs) j
    { acc with
      leftGRFTorques := (eng.frameJac s j lCalcCOP).transpose.mulVec
        (mkSpatial (groundLeftMoment grfs) (groundLeftForce grfs)) }
  else if eng.bodyName j = "femur_r" then
    { acc with rightAPOJacobian := eng.frameJac s j orthosisCOP }
  else if eng.bodyName j = "femur_l" then
    { acc with leftAPOJacobian := eng.frameJac s j orthosisCOP }
  else acc

/-- The body-scan loop over all `m` bodies, starting from the
default-constructed (zero) values of lines 254–255. -/
def contactResults (eng : Engine n m α) (s : SimState n α) (grfs : Fin 18 → α) :
    ContactState n α :=
  (List.range m).foldl (contactStep eng s grfs) ⟨0, 0, 0, 0⟩

/-- Source lines 386–392: the residual,
`gravityTorques - inertiaTorques + dynamics - coriolisTorques
 + rightGRFTorques + leftGRFTorques`. -/
def residualForce (gravityTorques inertiaTorques dynamics coriolisTorques
    rightGRFTorques leftGRFTorques : Fin n → α) : Fin n → α :=
  gravityTorques - inertiaTorques + dynamics - coriolisTorques
    + rightGRFTorques + leftGRFTorques

/-- Source lines 390–392: the internal force,
`inertiaTorques - gravityTorques + coriolisTorques - rightGRFTorques
 - leftGRFTorques`. -/
def internalForce (inertiaTorques gravityTorques coriolisTorques
    rightGRFTorques leftGRFTorques : Fin n → α) : Fin n → α :=
  inertiaTorques - gravityTorques + coriolisTorques - rightGRFTorques
    - leftGRFTorques

/-- Everything the loop body computes for one frame. -/
structure FrameOut (n : ℕ) (α : Type) where
  inertiaTorques : Fin n → α
  gravityTorques : Fin n → α
  coriolisTorques : Fin n → α
  rightGRFTorques : Fin n → α
  leftGRFTorques : Fin n → α
  residualForce : Fin n → α
  internalForce : Fin n → α
  rightAPOJacobian : Matrix (Fin 6) (Fin n) α
  leftAPOJacobian : Matrix (Fin 6) (Fin n) α

/-- The per-frame computation (source lines 210–394): realize the state
from the frame's `2n` state scalars, compute the five torque
contributions and two Jacobians, and form the residual and internal
force. -/
def frameOutput (eng : Engine n m α) (garbage : ℕ → Fin 6 → α)
    (f : FrameInputs n α) : FrameOut n α :=
  let s := setStateValues f.states
  let inertia := inertiaTorques eng s f.accelerations
  let gravity := gravityTorques eng s
  let coriolis := coriolisTorques eng s garbage
  let contact := contactResults eng s f.grfs
  { inertiaTorques := inertia
    gravityTorques := gravity
    coriolisTorques := coriolis
    rightGRFTorques := contact.rightGRFTorques
    leftGRFTorques := contact.leftGRFTorques
    residualForce := residualForce gravity inertia f.dynamics coriolis
      contact.rightGRFTorques contact.leftGRFTorques
    internalForce := internalForce inertia gravity coriolis
      contact.rightGRFTorques contact.leftGRFTorques
    rightAPOJacobian := contact.rightAPOJacobian
    leftAPOJacobian := contact.leftAPOJacobian }

/-- The four per-frame artifacts the program writes (lines 377–394):
one block per frame in each APO-Jacobian file, one row per frame in the
residual file and in the internal-force file. -/
structure WrittenFrame (n : ℕ) (α : Type) where
  leftAPOJacobian : Matrix (Fin 6) (Fin n) α
  rightAPOJacobian : Matrix (Fin 6) (Fin n) α
  residualForce : Fin n → α
  internalForce : Fin n → α

/-- The written artifacts computed from one frame's raw payload: parse
(with unit conversion), compute, and keep the four written quantities. -/
def writtenOf (eng : Engine n m α) (deg2rad : α) (garbage : ℕ → Fin 6 → α)
    (rawGrfs : Fin 18 → α) (rawStates : Fin (2 * n) → α)
    (rawAccels rawDyns : Fin n → α) : WrittenFrame n α :=
  let out := frameOutput eng garbage
    (readFrame deg2rad rawGrfs rawStates rawAccels rawDyns)
  { leftAPOJacobian := out.leftAPOJacobian
    rightAPOJacobian := out.rightAPOJacobian
    residualForce := out.residualForce
    internalForce := out.internalForce }

/-- The `while (true)` loop of lines 170–418 over the four input streams,
each a flat list of scalars.  Each iteration pops one leading time tag
from every stream, stops if the states stream had already been exhausted
(the `states_file.eof()` check of line 179 — the only stream whose end is
ever tested), then reads the payload (18 GRF scalars, `2n` state scalars,
`n` accelerations, `n` torques; a read past the end of a list yields `0`,
as a failed C++ stream extraction does), computes the frame, and emits
the written artifacts unless `first_frame` is still set. -/
def run (eng : Engine n m α) (deg2rad : α) (garbage : ℕ → Fin 6 → α)
    (grfsS statesS accelsS dynsS : List α) (first_frame : Bool) :
    List (WrittenFrame n α) :=
  match statesS with
  | [] => []
  | _timeTag :: statesRest =>
    let grfsRest := grfsS.drop 1
    let accelsRest := accelsS.drop 1
    let dynsRest := dynsS.drop 1
    let rawGrfs : Fin 18 → α := fun i => grfsRest.getD i 0
    let rawStates : Fin (2 * n) → α := fun i => statesRest.getD i 0
    let rawAccels : Fin n → α := fun i => accelsRest.getD i 0
    let rawDyns : Fin n → α := fun i => dynsRest.getD i 0
    let out := writtenOf eng deg2rad garbage rawGrfs rawStates rawAccels rawDyns
    let rest := run eng deg2rad garbage (grfsRest.drop 18)
      (statesRest.drop (2 * n)) (accelsRest.drop n) (dynsRest.drop n) false
    if first_frame then rest else out :: rest
  termination_by statesS.length
  decreasing_by simp [List.length_drop]; omega

/-- The number of loop iterations that read a payload, as a function of
the degree-of-freedom count and the states stream alone: one iteration
per leading time tag present, each consuming `1 + 2n` scalars. -/
def numFrames (nd : ℕ) (statesS : List α) : ℕ :=
  match statesS with
  | [] => 0
  | _timeTag :: statesRest => numFrames nd (statesRest.drop (2 * nd)) + 1
  termination_by statesS.length
  decreasing_by simp [List.length_drop]; omega

/-- One aligned input frame as laid out in the four stream files: a
leading time tag in each stream followed by that stream's payload. -/
structure RawFrame (n : ℕ) (α : Type) where
  timeGrfs : α
  timeStates : α
  timeAccels : α
  timeDyns : α
  grfs : Fin 18 → α
  states : Fin (2 * n) → α
  accelerations : Fin n → α
  dynamics : Fin n → α

/-- The external-force stream holding the given aligned frames. -/
def grfsStream (frames : List (RawFrame n α)) : List α :=
  frames.flatMap fun fr => fr.timeGrfs :: List.ofFn fr.grfs

/-- The states stream holding the given aligned frames. -/
def statesStream (frames : List (RawFrame n α)) : List α :=
  frames.flatMap fun fr => fr.timeStates :: List.ofFn fr.states

/-- The accelerations stream holding the given aligned frames. -/
def accelsStream (frames : List (RawFrame n α)) : List α :=
  frames.flatMap fun fr => fr.timeAccels :: List.ofFn fr.accelerations

/-- The inverse-dynamics stream holding the given aligned frames. -/
def dynsStream (frames : List (RawFrame n α)) : List α :=
  frames.flatMap fun fr => fr.timeDyns :: List.ofFn fr.dynamics

/-- The written artifacts of one aligned frame. -/
def writtenOfRaw (eng : Engine n m α) (deg2rad : α) (garbage : ℕ → Fin 6 → α)
    (fr : RawFrame n α) : WrittenFrame n α :=
  writtenOf eng deg2rad garbage fr.grfs fr.states fr.accelerations fr.dynamics

/-- What the prologue of `main` can be observed to do: the exit code,
whether the model was loaded (line 127), and whether any output file was
opened (lines 143–146). -/
structure MainTrace where
  exitCode : ℕ
  modelLoaded : Bool
  outputsOpened : Bool

/-- Control flow of `main`'s argument handling (lines 91–109): an `argc`
below 7 (program name plus six required arguments) exits 1 immediately,
before the `try` block that loads the model and opens the output files;
an `argc` above 8 likewise; with `argc = 8`, a 7th positional value that
is not boolean (line 103, as the surrounding messages intend) likewise.
Otherwise execution proceeds to the rest of `main`, abstracted as
`body`; `flagValid` abstracts the boolean check of the optional flag. -/
def mainRun (argc : ℕ) (flagValid : Bool) (body : MainTrace) : MainTrace :=
  if argc < 7 then ⟨1, false, false⟩
  else if 8 < argc then ⟨1, false, false⟩
  else if argc = 8 ∧ flagValid = false then ⟨1, false, false⟩
  else body

/-- A concrete one-mobility, 18-body engine over `ℚ`, used to exercise the
theorems on explicit inputs. -/
def ratEngine : Engine 1 18 ℚ where
  massMatrix _ := 1
  gravityBodyForce _ _ := fun _ => 1
  sysJacBlock _ _ := 0
  centrifugal _ _ := 0
  frameJac _ _ _ := 0
  transformPos _ _ p _ := p
  bodyName _ := ""
  centrifugal_u_zero _ _ _ := rfl

/-- A concrete realized state for `ratEngine`. -/
def ratState : SimState 1 ℚ := ⟨fun _ => 0, fun _ => 0⟩

/-- Concrete indeterminate stack contents for the centrifugal buffer. -/
def ratGarbage : ℕ → Fin 6 → ℚ := fun _ _ => 1

/-- A concrete all-zero frame for `ratEngine`. -/
def ratZeroFrame : FrameInputs 1 ℚ :=
  ⟨fun _ => 0, fun _ => 0, fun _ => 0, fun _ => 0⟩

end JSF

namespace JSF

variable {α : Type} [Field α] {n m : ℕ}

/-- C1: for every processed frame the residual is
`gravityTorque − inertialTorque + τ_measured − coriolisTorque
 + contactTorque_right + contactTorque_left` and the internal force is
`inertialTorque − gravityTorque + coriolisTorque − contactTorque_right
 − contactTorque_left`, with exactly these signs, `τ_measured` being the
frame's measured net joint torque (`dynamics`) vector. -/
theorem residualInternalSignConvention (eng : Engine n m α)
    (garbage : ℕ → Fin 6 → α) (f : FrameInputs n α) :
    (frameOutput eng garbage f).residualForce
        = gravityTorques eng (setStateValues f.states)
          - inertiaTorques eng (setStateValues f.states) f.accelerations
          + f.dynamics
          - coriolisTorques eng (setStateValues f.states) garbage
          + (contactResults eng (setStateValues f.states) f.grfs).rightGRFTorques
          + (contactResults eng (setStateValues f.states) f.grfs).leftGRFTorques
      ∧ (frameOutput eng garbage f).internalForce
        = inertiaTorques eng (setStateValues f.states) f.accelerations
          - gravityTorques eng (setStateValues f.states)
          + coriolisTorques eng (setStateValues f.states) garbage
          - (contactResults eng (setStateValues f.states) f.grfs).rightGRFTorques
          - (contactResults eng (setStateValues f.states) f.grfs).leftGRFTorques :=
  ⟨rfl, rfl⟩

/-- C2: for every frame and for arbitrary length-`n` contribution vectors
and measured torque vector, the two emitted vectors satisfy
`internal = −residual + τ_measured` exactly, independent of the model. -/
theorem internalEqNegResidualPlusMeasured (eng : Engine n m α)
    (garbage : ℕ → Fin 6 → α) (f : FrameInputs n α)
    (g i d c r l : Fin n → α) :
    internalForce i g c r l = -residualForce g i d c r l + d
      ∧ (frameOutput eng garbage f).internalForce
        = -(frameOutput eng garbage f).residualForce + f.dynamics := by
  have key : ∀ g i d c r l : Fin n → α,
      internalForce i g c r l = -residualForce g i d c r l + d := by
    intro g i d c r l
    funext k
    simp only [internalForce, residualForce, Pi.add_apply, Pi.sub_apply,
      Pi.neg_apply]
    ring
  exact ⟨key g i d c r l, key _ _ _ _ _ _⟩

/-- C3: for every frame and every acceleration index `j` with `j < 3` or
`j > 5`, the acceleration used downstream equals the input value times
`π/180` (the source factor is `(std::atan(1)*4)/180.0`); at indices 3–5 it
equals the input unconverted; the measured-torque and state values are
never unit-converted. -/
theorem accelerationUnitConversion (nd : ℕ) (rawGrfs : Fin 18 → ℝ)
    (rawStates : Fin (2 * nd) → ℝ) (rawAccels rawDyns : Fin nd → ℝ) :
    (∀ j : Fin nd,
      (readFrame (Real.arctan 1 * 4 / 180) rawGrfs rawStates rawAccels
          rawDyns).accelerations j
        = if (j : ℕ) < 3 ∨ 5 < (j : ℕ) then rawAccels j * (Real.pi / 180)
          else rawAccels j)
    ∧ (readFrame (Real.arctan 1 * 4 / 180) rawGrfs rawStates rawAccels
        rawDyns).dynamics = rawDyns
    ∧ (readFrame (Real.arctan 1 * 4 / 180) rawGrfs rawStates rawAccels
        rawDyns).states = rawStates := by
  refine ⟨fun j => ?_, rfl, rfl⟩
  have h : Real.arctan 1 * 4 / 180 = Real.pi / 180 := by
    rw [Real.arctan_one]; ring
  simp only [readFrame, h]

/-- Entries of an `ofFn` block at the front of a stream read back as the
original function values. -/
theorem getD_ofFn_append {k : ℕ} (v : Fin k → α) (l : List α) (i : Fin k) :
    (List.ofFn v ++ l).getD (i : ℕ) 0 = v i := by
  rw [List.getD_append _ _ _ _ (by simp [List.length_ofFn])]
  simp [List.getD_eq_getElem?_getD, List.getElem?_ofFn]

omit [Field α] in
/-- Dropping an `ofFn` block at the front of a stream leaves the rest. -/
theorem drop_ofFn_append {k : ℕ} (v : Fin k → α) (l : List α) :
    (List.ofFn v ++ l).drop k = l :=
  List.drop_left' (by simp)

/-- One loop iteration over aligned streams: the head frame is parsed
exactly, emitted unless it is the first, and the loop continues on the
remaining frames with `first_frame` cleared. -/
theorem run_aligned_cons (eng : Engine n m α) (deg2rad : α)
    (garbage : ℕ → Fin 6 → α) (fr : RawFrame n α) (rest : List (RawFrame n α))
    (first_frame : Bool) :
    run eng deg2rad garbage (grfsStream (fr :: rest)) (statesStream (fr :: rest))
        (accelsStream (fr :: rest)) (dynsStream (fr :: rest)) first_frame
      = (if first_frame then [] else [writtenOfRaw eng deg2rad garbage fr])
        ++ run eng deg2rad garbage (grfsStream rest) (statesStream rest)
            (accelsStream rest) (dynsStream rest) false := by
  have hSs : statesStream (fr :: rest)
      = fr.timeStates :: (List.ofFn fr.states ++ statesStream rest) := rfl
  have hGs : grfsStream (fr :: rest)
      = fr.timeGrfs :: (List.ofFn fr.grfs ++ grfsStream rest) := rfl
  have hAs : accelsStream (fr :: rest)
      = fr.timeAccels :: (List.ofFn fr.accelerations ++ accelsStream rest) := rfl
  have hDs : dynsStream (fr :: rest)
      = fr.timeDyns :: (List.ofFn fr.dynamics ++ dynsStream rest) := rfl
  rw [hSs, hGs, hAs, hDs]
  simp only [run]
  simp only [List.drop_succ_cons, List.drop_zero]
  have hG : (fun i : Fin 18 => (List.ofFn fr.grfs ++ grfsStream rest).getD (i : ℕ) 0)
      = fr.grfs := funext fun i => getD_ofFn_append _ _ i
  have hS : (fun i : Fin (2 * n) =>
        (List.ofFn fr.states ++ statesStream rest).getD (i : ℕ) 0)
      = fr.states := funext fun i => getD_ofFn_append _ _ i
  have hA : (fun i : Fin n =>
        (List.ofFn fr.accelerations ++ accelsStream rest).getD (i : ℕ) 0)
      = fr.accelerations := funext fun i => getD_ofFn_append _ _ i
  have hD : (fun i : Fin n =>
        (List.ofFn fr.dynamics ++ dynsStream rest).getD (i : ℕ) 0)
      = fr.dynamics := funext fun i => getD_ofFn_append _ _ i
  rw [hG, hS, hA, hD, drop_ofFn_append, drop_ofFn_append, drop_ofFn_append,
    drop_ofFn_append]
  cases first_frame <;> simp [writtenOfRaw]

/-- With `first_frame` already cleared, the loop over aligned streams
emits exactly one record per frame, each computed from that frame. -/
theorem run_aligned_false (eng : Engine n m α) (deg2rad : α)
    (garbage : ℕ → Fin 6 → α) (frames : List (RawFrame n α)) :
    run eng deg2rad garbage (grfsStream frames) (statesStream frames)
        (accelsStream frames) (dynsStream frames) false
      = frames.map (writtenOfRaw eng deg2rad garbage) := by
  induction frames with
  | nil => simp [grfsStream, statesStream, accelsStream, dynsStream, run]
  | cons fr rest ih => rw [run_aligned_cons, ih]; simp

/-- C5: with `F` aligned input frames, the residual and internal-force
files receive exactly `F − 1` rows and each attachment-Jacobian file
`F − 1` blocks; nothing is emitted for the first frame, and the record
emitted for frame `i ≥ 1` is computed from frame `i` itself (the emitted
list is the map of the per-frame computation over frames `1,…,F−1`),
never carried over from a previous frame. -/
theorem outputRowCountAndPerFrameFreshness (eng : Engine n m α) (deg2rad : α)
    (garbage : ℕ → Fin 6 → α) (frames : List (RawFrame n α)) :
    run eng deg2rad garbage (grfsStream frames) (statesStream frames)
        (accelsStream frames) (dynsStream frames) true
      = (frames.drop 1).map (writtenOfRaw eng deg2rad garbage)
    ∧ (run eng deg2rad garbage (grfsStream frames) (statesStream frames)
        (accelsStream frames) (dynsStream frames) true).length
      = frames.length - 1 := by
  have key : run eng deg2rad garbage (grfsStream frames) (statesStream frames)
      (accelsStream frames) (dynsStream frames) true
      = (frames.drop 1).map (writtenOfRaw eng deg2rad garbage) := by
    cases frames with
    | nil => simp [grfsStream, statesStream, accelsStream, dynsStream, run]
    | cons fr rest => rw [run_aligned_cons, run_aligned_false]; simp
  refine ⟨key, ?_⟩
  rw [key]
  cases frames <;> simp

/-- C8: the frame loop is a total function of its finite inputs (both
`run` and `numFrames` recurse on the states stream, which strictly
shrinks each iteration), and the number of frames it processes is
`numFrames` of the states stream alone — the loop stops exactly when the
states stream is exhausted at its leading time-tag read, and the contents
and lengths of the other three streams never influence when it stops. -/
theorem loopStopsWithStatesStream (eng : Engine n m α) (deg2rad : α)
    (garbage : ℕ → Fin 6 → α) (grfsS statesS accelsS dynsS : List α)
    (first_frame : Bool) :
    (run eng deg2rad garbage grfsS statesS accelsS dynsS first_frame).length
      = if first_frame then numFrames n statesS - 1 else numFrames n statesS := by
  induction grfsS, statesS, accelsS, dynsS, first_frame
      using run.induct eng deg2rad garbage with
  | case1 grfsS accelsS dynsS f => simp [run, numFrames]
  | case2 grfsS accelsS dynsS t statesRest grfsRest accelsRest dynsRest ih =>
      simp only [Bool.false_eq_true, if_false] at ih
      simp [run, numFrames, grfsRest, accelsRest, dynsRest] at ih ⊢
      simp [ih]
  | case3 grfsS accelsS dynsS first_frame t statesRest grfsRest accelsRest
      dynsRest hf ih =>
      simp only [Bool.not_eq_true] at hf
      subst hf
      simp only [Bool.false_eq_true, if_false] at ih
      simp [run, numFrames, grfsRest, accelsRest, dynsRest] at ih ⊢
      simp [ih]

/-- C9: with 5 positional arguments (`argc = 6`, fewer than the six
required), the program exits with code 1 before loading any model and
does not create or open any output file. -/
theorem tooFewArgumentsExitEarly (flagValid : Bool) (body : MainTrace) :
    mainRun 6 flagValid body = ⟨1, false, false⟩ := rfl

/-- Entries of a mapped `range` list read back as the function values. -/
theorem getD_map_range {β : Type} (f : ℕ → β) (d : β) {L b : ℕ} (hb : b < L) :
    ((List.range L).map f).getD b d = f b := by
  simp [List.getD_eq_getElem?_getD, List.getElem?_map, List.getElem?_range hb]

/-- C10: the per-body centrifugal buffer has a fixed capacity of 18
spatial vectors regardless of the model's body count: every per-body
write index of lines 237–245 stays below 18 exactly when the body count
is at most 18, and the vector passed to the Jacobian-transpose mapping
always has exactly 18 entries. -/
theorem centrifugalBufferFixedCapacity (eng : Engine n m α)
    (s : SimState n α) (garbage : ℕ → Fin 6 → α) :
    (((centrifugalWriteIndices m).all fun j => decide (j < 18)) = true ↔ m ≤ 18)
    ∧ (totalCentrifugalForces_reference eng s garbage).length = 18 := by
  constructor
  · simp only [centrifugalWriteIndices, List.all_cons, List.all_eq_true,
      Bool.and_eq_true, decide_eq_true_eq, List.mem_range']
    constructor
    · rintro ⟨-, h⟩
      by_contra hm
      push_neg at hm
      have := h 18 ⟨17, by omega, by omega⟩
      omega
    · intro hm
      refine ⟨by omega, fun j hj => ?_⟩
      obtain ⟨i, hi, rfl⟩ := hj
      omega
  · simp [totalCentrifugalForces_reference]

/-- C6: the Coriolis/centrifugal contribution is computed by mapping the
per-body centrifugal spatial forces through the system Jacobian
transpose, with the root/ground body's entry (index 0) set to zero and
every other body's entry taken from the dynamics engine. -/
theorem coriolisMappingStructure (eng : Engine n m α) (s : SimState n α)
    (garbage : ℕ → Fin 6 → α) :
    coriolisTorques eng s garbage
        = mulSysJacT eng s (totalCentrifugalForces_reference eng s garbage)
    ∧ (totalCentrifugalForces_reference eng s garbage).getD 0 0 = 0
    ∧ ∀ j : ℕ, 1 ≤ j → j < m → j < 18 →
        (totalCentrifugalForces_reference eng s garbage).getD j 0
          = eng.centrifugal s j := by
  refine ⟨rfl, ?_, ?_⟩
  · rw [totalCentrifugalForces_reference, getD_map_range _ _ (by omega)]
    simp [totalCentrifugalForces]
  · intro j h1 hm18 h18
    rw [totalCentrifugalForces_reference, getD_map_range _ _ h18,
      totalCentrifugalForces, if_neg (by omega), if_pos hm18]

/-- Witness for C6 on the concrete engine: body 1's buffer entry is the
engine's centrifugal force, entry 0 is zero. -/
theorem coriolisMappingStructureWitness :
    coriolisTorques ratEngine ratState ratGarbage
        = mulSysJacT ratEngine ratState
            (totalCentrifugalForces_reference ratEngine ratState ratGarbage)
    ∧ (totalCentrifugalForces_reference ratEngine ratState ratGarbage).getD 0 0
        = 0
    ∧ (totalCentrifugalForces_reference ratEngine ratState ratGarbage).getD 1 0
        = ratEngine.centrifugal ratState 1 := by
  obtain ⟨h1, h2, h3⟩ := coriolisMappingStructure ratEngine ratState ratGarbage
  exact ⟨h1, h2, h3 1 (by decide) (by decide) (by decide)⟩

/-- The body-scan loop keeps both contact torque vectors at zero when all
18 contact channels of the frame are zero. -/
theorem contact_foldl_zero (eng : Engine n m α) (s : SimState n α)
    (grfs : Fin 18 → α) (hg : ∀ c, grfs c = 0) (l : List ℕ) :
    ∀ acc : ContactState n α, acc.rightGRFTorques = 0 → acc.leftGRFTorques = 0 →
      (l.foldl (contactStep eng s grfs) acc).rightGRFTorques = 0
      ∧ (l.foldl (contactStep eng s grfs) acc).leftGRFTorques = 0 := by
  have hwr : mkSpatial (groundRightMoment grfs) (groundRightForce grfs) = 0 := by
    funext i
    rw [mkSpatial]
    split <;> simp [groundRightMoment, groundRightForce, hg]
  have hwl : mkSpatial (groundLeftMoment grfs) (groundLeftForce grfs) = 0 := by
    funext i
    rw [mkSpatial]
    split <;> simp [groundLeftMoment, groundLeftForce, hg]
  induction l with
  | nil => exact fun acc hr hl => ⟨hr, hl⟩
  | cons j l ih =>
      intro acc hr hl
      rw [List.foldl_cons]
      refine ih _ ?_ ?_ <;>
      · simp only [contactStep]
        split_ifs <;> simp [hwr, hwl, hr, hl]

/-- C4: for any frame with all-zero accelerations, an all-zero velocity
half of the state, and all 18 contact channels zero, the computed
inertial, Coriolis, right-contact and left-contact torques are each the
zero vector; only the gravity torque may be non-zero.  The model has the
18 bodies the hard-coded centrifugal buffer demands (the library mapping
call is only defined when the buffer length equals the body count). -/
theorem zeroMotionZeroTorques (eng : Engine n 18 α)
    (garbage : ℕ → Fin 6 → α) (f : FrameInputs n α)
    (ha : ∀ j, f.accelerations j = 0)
    (hu : ∀ i : Fin (2 * n), n ≤ (i : ℕ) → f.states i = 0)
    (hg : ∀ c, f.grfs c = 0) :
    (frameOutput eng garbage f).inertiaTorques = 0
    ∧ (frameOutput eng garbage f).coriolisTorques = 0
    ∧ (frameOutput eng garbage f).rightGRFTorques = 0
    ∧ (frameOutput eng garbage f).leftGRFTorques = 0 := by
  have hIn : (frameOutput eng garbage f).inertiaTorques
      = inertiaTorques eng (setStateValues f.states) f.accelerations := rfl
  have hCo : (frameOutput eng garbage f).coriolisTorques
      = coriolisTorques eng (setStateValues f.states) garbage := rfl
  have hR : (frameOutput eng garbage f).rightGRFTorques
      = (contactResults eng (setStateValues f.states) f.grfs).rightGRFTorques :=
    rfl
  have hL : (frameOutput eng garbage f).leftGRFTorques
      = (contactResults eng (setStateValues f.states) f.grfs).leftGRFTorques :=
    rfl
  have haz : f.accelerations = 0 := funext ha
  have hu0 : (setStateValues f.states).u = 0 := by
    funext k
    exact hu _ (by simp [setStateValues])
  have hcent := eng.centrifugal_u_zero _ hu0
  have hcori : coriolisTorques eng (setStateValues f.states) garbage = 0 := by
    funext k
    rw [coriolisTorques, mulSysJacT]
    simp only [Pi.zero_apply]
    apply Finset.sum_eq_zero
    intro b hb
    have hb18 : b < 18 := by
      simpa [totalCentrifugalForces_reference] using Finset.mem_range.mp hb
    rw [totalCentrifugalForces_reference, getD_map_range _ _ hb18,
      totalCentrifugalForces]
    split_ifs <;> simp_all
  have hcontact := contact_foldl_zero eng (setStateValues f.states) f.grfs hg
    (List.range 18) ⟨0, 0, 0, 0⟩ rfl rfl
  refine ⟨?_, ?_, ?_, ?_⟩
  · rw [hIn, inertiaTorques, haz, Matrix.mulVec_zero]
  · rw [hCo, hcori]
  · rw [hR, contactResults]; exact hcontact.1
  · rw [hL, contactResults]; exact hcontact.2

/-- Witness for C4: the all-zero frame on the concrete engine yields zero
inertial, Coriolis and contact torques. -/
theorem zeroMotionZeroTorquesWitness :
    (frameOutput ratEngine ratGarbage ratZeroFrame).inertiaTorques = 0
    ∧ (frameOutput ratEngine ratGarbage ratZeroFrame).coriolisTorques = 0
    ∧ (frameOutput ratEngine ratGarbage ratZeroFrame).rightGRFTorques = 0
    ∧ (frameOutput ratEngine ratGarbage ratZeroFrame).leftGRFTorques = 0 :=
  zeroMotionZeroTorques ratEngine ratGarbage ratZeroFrame
    (fun _ => rfl) (fun _ _ => rfl) (fun _ => rfl)

/-- The body-scan loop never changes the right contact torque when no
scanned body is named `calcn_r`. -/
theorem contact_foldl_right_unmatched (eng : Engine n m α) (s : SimState n α)
    (grfs : Fin 18 → α) (l : List ℕ) :
    ∀ acc : ContactState n α, (∀ j ∈ l, eng.bodyName j ≠ "calcn_r") →
      (l.foldl (contactStep eng s grfs) acc).rightGRFTorques
        = acc.rightGRFTorques := by
  induction l with
  | nil => exact fun acc _ => rfl
  | cons j l ih =>
      intro acc hname
      rw [List.foldl_cons, ih _ (fun x hx => hname x (by simp [hx]))]
      have hj := hname j (by simp)
      simp only [contactStep]
      split_ifs <;> simp_all

/-- The body-scan loop never changes the left contact torque when no
scanned body is named `calcn_l`. -/
theorem contact_foldl_left_unmatched (eng : Engine n m α) (s : SimState n α)
    (grfs : Fin 18 → α) (l : List ℕ) :
    ∀ acc : ContactState n α, (∀ j ∈ l, eng.bodyName j ≠ "calcn_l") →
      (l.foldl (contactStep eng s grfs) acc).leftGRFTorques
        = acc.leftGRFTorques := by
  induction l with
  | nil => exact fun acc _ => rfl
  | cons j l ih =>
      intro acc hname
      rw [List.foldl_cons, ih _ (fun x hx => hname x (by simp [hx]))]
      have hj := hname j (by simp)
      simp only [contactStep]
      split_ifs <;> simp_all

/-- The body-scan loop never changes the right APO Jacobian when no
scanned body is named `femur_r`. -/
theorem contact_foldl_rightJac_unmatched (eng : Engine n m α)
    (s : SimState n α) (grfs : Fin 18 → α) (l : List ℕ) :
    ∀ acc : ContactState n α, (∀ j ∈ l, eng.bodyName j ≠ "femur_r") →
      (l.foldl (contactStep eng s grfs) acc).rightAPOJacobian
        = acc.rightAPOJacobian := by
  induction l with
  | nil => exact fun acc _ => rfl
  | cons j l ih =>
      intro acc hname
      rw [List.foldl_cons, ih _ (fun x hx => hname x (by simp [hx]))]
      have hj := hname j (by simp)
      simp only [contactStep]
      split_ifs <;> simp_all

/-- The body-scan loop never changes the left APO Jacobian when no
scanned body is named `femur_l`. -/
theorem contact_foldl_leftJac_unmatched (eng : Engine n m α)
    (s : SimState n α) (grfs : Fin 18 → α) (l : List ℕ) :
    ∀ acc : ContactState n α, (∀ j ∈ l, eng.bodyName j ≠ "femur_l") →
      (l.foldl (contactStep eng s grfs) acc).leftAPOJacobian
        = acc.leftAPOJacobian := by
  induction l with
  | nil => exact fun acc _ => rfl
  | cons j l ih =>
      intro acc hname
      rw [List.foldl_cons, ih _ (fun x hx => hname x (by simp [hx]))]
      have hj := hname j (by simp)
      simp only [contactStep]
      split_ifs <;> simp_all

/-- C7: when no body of the model bears one of the four expected names,
the corresponding contact torque or attachment Jacobian is never
computed for any frame and its zero default persists in the outputs and
in the residual/internal sums. -/
theorem missingBodyNameSilentDefault (eng : Engine n m α)
    (garbage : ℕ → Fin 6 → α) (f : FrameInputs n α) :
    ((∀ j, j < m → eng.bodyName j ≠ "calcn_r") →
      (frameOutput eng garbage f).rightGRFTorques = 0
      ∧ (frameOutput eng garbage f).residualForce
          = gravityTorques eng (setStateValues f.states)
            - inertiaTorques eng (setStateValues f.states) f.accelerations
            + f.dynamics
            - coriolisTorques eng (setStateValues f.states) garbage
            + 0
            + (frameOutput eng garbage f).leftGRFTorques
      ∧ (frameOutput eng garbage f).internalForce
          = inertiaTorques eng (setStateValues f.states) f.accelerations
            - gravityTorques eng (setStateValues f.states)
            + coriolisTorques eng (setStateValues f.states) garbage
            - 0
            - (frameOutput eng garbage f).leftGRFTorques)
    ∧ ((∀ j, j < m → eng.bodyName j ≠ "calcn_l") →
      (frameOutput eng garbage f).leftGRFTorques = 0)
    ∧ ((∀ j, j < m → eng.bodyName j ≠ "femur_r") →
      (frameOutput eng garbage f).rightAPOJacobian = 0)
    ∧ ((∀ j, j < m → eng.bodyName j ≠ "femur_l") →
      (frameOutput eng garbage f).leftAPOJacobian = 0) := by
  refine ⟨?_, ?_, ?_, ?_⟩
  · intro hname
    have hz : (frameOutput eng garbage f).rightGRFTorques = 0 :=
      contact_foldl_right_unmatched eng (setStateValues f.states) f.grfs
        (List.range m) (⟨0, 0, 0, 0⟩ : ContactState n α)
        (fun x hx => hname x (List.mem_range.mp hx))
    refine ⟨hz, ?_, ?_⟩
    · have hres : (frameOutput eng garbage f).residualForce
          = residualForce (gravityTorques eng (setStateValues f.states))
              (inertiaTorques eng (setStateValues f.states) f.accelerations)
              f.dynamics
              (coriolisTorques eng (setStateValues f.states) garbage)
              ((contactResults eng (setStateValues f.states)
                f.grfs).rightGRFTorques)
              ((contactResults eng (setStateValues f.states)
                f.grfs).leftGRFTorques) := rfl
      rw [hres, show (contactResults eng (setStateValues f.states)
          f.grfs).rightGRFTorques
          = (frameOutput eng garbage f).rightGRFTorques from rfl, hz]
      rfl
    · have hint : (frameOutput eng garbage f).internalForce
          = internalForce
              (inertiaTorques eng (setStateValues f.states) f.accelerations)
              (gravityTorques eng (setStateValues f.states))
              (coriolisTorques eng (setStateValues f.states) garbage)
              ((contactResults eng (setStateValues f.states)
                f.grfs).rightGRFTorques)
              ((contactResults eng (setStateValues f.states)
                f.grfs).leftGRFTorques) := rfl
      rw [hint, show (contactResults eng (setStateValues f.states)
          f.grfs).rightGRFTorques
          = (frameOutput eng garbage f).rightGRFTorques from rfl, hz]
      rfl
  · intro hname
    exact contact_foldl_left_unmatched eng (setStateValues f.states) f.grfs
      (List.range m) (⟨0, 0, 0, 0⟩ : ContactState n α)
      (fun x hx => hname x (List.mem_range.mp hx))
  · intro hname
    exact contact_foldl_rightJac_unmatched eng (setStateValues f.states) f.grfs
      (List.range m) (⟨0, 0, 0, 0⟩ : ContactState n α)
      (fun x hx => hname x (List.mem_range.mp hx))
  · intro hname
    exact contact_foldl_leftJac_unmatched eng (setStateValues f.states) f.grfs
      (List.range m) (⟨0, 0, 0, 0⟩ : ContactState n α)
      (fun x hx => hname x (List.mem_range.mp hx))

/-- Witness for C7: the concrete engine names every body with the empty
string, so all four defaults persist. -/
theorem missingBodyNameSilentDefaultWitness :
    (frameOutput ratEngine ratGarbage ratZeroFrame).rightGRFTorques = 0
    ∧ (frameOutput ratEngine ratGarbage ratZeroFrame).leftGRFTorques = 0
    ∧ (frameOutput ratEngine ratGarbage ratZeroFrame).rightAPOJacobian = 0
    ∧ (frameOutput ratEngine ratGarbage ratZeroFrame).leftAPOJacobian = 0 := by
  obtain ⟨h1, h2, h3, h4⟩ :=
    missingBodyNameSilentDefault ratEngine ratGarbage ratZeroFrame
  exact ⟨(h1 (fun j _ => (by decide : ("" : String) ≠ "calcn_r"))).1,
    h2 (fun j _ => (by decide : ("" : String) ≠ "calcn_l")),
    h3 (fun j _ => (by decide : ("" : String) ≠ "femur_r")),
    h4 (fun j _ => (by decide : ("" : String) ≠ "femur_l"))⟩

end JSF
